import Mathlib

/-!
Shallow embedding of the Dungeons client (two app variants).

Variant A (src/unnamed/part_000): local-authority movement.  The
keyboard handler clamps the candidate coordinate to the grid, checks the
destination cell is Floor (0), and on success updates position, reveals
the 3x3 neighbourhood in `discovered_tiles` and increments `moves`.

Variant B (src/frontend/src/App.js): remote-authority movement and the
combat controller.  `movePlayer` and `performCombatAction` are modelled
as pure functions over the client state together with oracles for the
remote round trips (`Except Unit _`: `.error` is a transport failure).
The per-cell glyph resolution of `renderDungeon` is modelled by
`resolveGlyph`.
-/

/-- Entity records as delivered by the remote authority (App.js usage). -/
structure Treasure where
  x : Nat
  y : Nat
  type : String
  id : String
deriving DecidableEq

structure Enemy where
  x : Nat
  y : Nat
  type : String
  alive : Bool
  id : String
deriving DecidableEq

structure Trap where
  x : Nat
  y : Nat
deriving DecidableEq

structure Door where
  x : Nat
  y : Nat
  locked : Bool
  id : String
deriving DecidableEq

structure Chest where
  x : Nat
  y : Nat
  locked : Bool
  id : String
deriving DecidableEq

structure KeyEnt where
  x : Nat
  y : Nat
  type : String
  id : String
deriving DecidableEq

/-- Dungeon: immutable per-session world.  `grid` is row-major,
`grid[y][x]`, cell kinds Floor=0, Wall=1, Door=2, Chest=3. -/
structure Dungeon where
  width : Nat
  height : Nat
  grid : List (List Nat)
  theme : String
  difficulty : String
  treasures : List Treasure
  enemies : List Enemy
  traps : List Trap
  doors : List Door
  chests : List Chest
  keys : List KeyEnt
deriving DecidableEq

structure Item where
  name : String
  emoji : String
deriving DecidableEq

/-- GameState: mutable per-session snapshot.  Coordinates are `Int`,
mirroring JS numbers under `Math.max`/`Math.min` clamping. -/
structure GameState where
  id : String
  player_x : Int
  player_y : Int
  discovered_tiles : List (List Bool)
  hero_class : String
  hero_gender : String
  player_hp : Int
  max_hp : Int
  player_attack : Int
  player_defense : Int
  player_magic : Int
  player_agility : Int
  player_level : Int
  moves : Nat
  inventory : List Item
  collected_treasures : List String
  opened_chests : List String
  collected_keys : List String
  in_combat : Bool
deriving DecidableEq

inductive Dir
  | up
  | down
  | left
  | right
deriving DecidableEq

/-- Candidate coordinates from `handleKeyPress` (part_000):
decrement/increment the relevant axis, clamped to the grid. -/
def candidate (d : Dungeon) (gs : GameState) : Dir → Int × Int
  | .up => (gs.player_x, max 0 (gs.player_y - 1))
  | .down => (gs.player_x, min ((d.height : Int) - 1) (gs.player_y + 1))
  | .left => (max 0 (gs.player_x - 1), gs.player_y)
  | .right => (min ((d.width : Int) - 1) (gs.player_x + 1), gs.player_y)

/-- `dungeon.grid[y][x]` as a JS member access: out-of-range reads give
`none` (undefined), which never equals `some 0`. -/
def cellAt (d : Dungeon) (x y : Int) : Option Nat :=
  if 0 ≤ x ∧ 0 ≤ y then (d.grid.getD y.toNat []).get? x.toNat else none

/-- One in-place write `newDiscovered[y][x] = true`. -/
def setTile (m : List (List Bool)) (y x : Nat) : List (List Bool) :=
  m.set y ((m.getD y []).set x true)

/-- Read of `discovered_tiles[y][x]` (out of range reads as false). -/
def tileAt (m : List (List Bool)) (y x : Nat) : Bool :=
  (m.getD y []).getD x false

/-- Loop order of the source: dy from -1 to 1, dx from -1 to 1. -/
def offsets : List (Int × Int) :=
  [(-1, -1), (-1, 0), (-1, 1), (0, -1), (0, 0), (0, 1), (1, -1), (1, 0), (1, 1)]

/-- Body of the discovery double loop: the write guarded by the bounds
check `checkY >= 0 && checkY < height && checkX >= 0 && checkX < width`. -/
def revealStep (d : Dungeon) (nx ny : Int) (acc : List (List Bool))
    (o : Int × Int) : List (List Bool) :=
  if 0 ≤ ny + o.1 ∧ ny + o.1 < (d.height : Int) ∧
      0 ≤ nx + o.2 ∧ nx + o.2 < (d.width : Int) then
    setTile acc (ny + o.1).toNat (nx + o.2).toNat
  else acc

/-- The discovery update of `handleKeyPress`: mark every in-bounds cell
of the 3x3 neighbourhood of `(nx, ny)` discovered. -/
def revealAround (d : Dungeon) (nx ny : Int) (tiles : List (List Bool)) :
    List (List Bool) :=
  offsets.foldl (revealStep d nx ny) tiles

/-- `handleKeyPress` from part_000, restricted to the four movement
keys (other keys return without touching the state). -/
def handleKeyPress (d : Dungeon) (gs : GameState) (dir : Dir) : GameState :=
  if cellAt d (candidate d gs dir).1 (candidate d gs dir).2 = some 0 then
    { gs with
      player_x := (candidate d gs dir).1
      player_y := (candidate d gs dir).2
      discovered_tiles :=
        revealAround d (candidate d gs dir).1 (candidate d gs dir).2
          gs.discovered_tiles
      moves := gs.moves + 1 }
  else gs

/-- A sequence of movement key presses, applied in order. -/
def runMoves (d : Dungeon) (gs : GameState) (dirs : List Dir) : GameState :=
  dirs.foldl (handleKeyPress d) gs

/-- Well-formedness of a discovery matrix against the dungeon
dimensions (the server delivers a height x width matrix). -/
def WfTiles (d : Dungeon) (m : List (List Bool)) : Prop :=
  m.length = d.height ∧
    ∀ i ∈ List.range d.height, (m.getD i []).length = d.width

instance (d : Dungeon) (m : List (List Bool)) : Decidable (WfTiles d m) :=
  decidable_of_iff
    (m.length = d.height ∧
      ∀ i ∈ List.range d.height, (m.getD i []).length = d.width)
    Iff.rfl

/-- Membership of cell `(x, y)` (0-based, `y` the row) in the clipped
3x3 neighbourhood of the candidate `(nx, ny)`. -/
def inNeighborhood (d : Dungeon) (nx ny : Int) (y x : Nat) : Bool :=
  decide (ny - 1 ≤ (y : Int) ∧ (y : Int) ≤ ny + 1 ∧
    nx - 1 ≤ (x : Int) ∧ (x : Int) ≤ nx + 1 ∧
    (y : Int) < (d.height : Int) ∧ (x : Int) < (d.width : Int))

/-- One iteration of the reveal loop writes the cell `(y, x)`: the
offset passes the bounds check and its target indices are `(y, x)`. -/
def hitB (d : Dungeon) (nx ny : Int) (o : Int × Int) (y x : Nat) : Bool :=
  decide (0 ≤ ny + o.1 ∧ ny + o.1 < (d.height : Int) ∧
    0 ≤ nx + o.2 ∧ nx + o.2 < (d.width : Int) ∧
    (ny + o.1).toNat = y ∧ (nx + o.2).toNat = x)

/-- Client-side state the App.js handlers mutate: the active session
(if any) and the combat/event log. -/
structure ClientState where
  gameState : Option GameState
  combatLog : List String
deriving DecidableEq

/-- Response of the `move-player` endpoint. -/
structure MoveResult where
  success : Bool
  message : Option String
  in_combat : Bool
  combat_enemy : Option Enemy
deriving DecidableEq

/-- Response of the `combat` endpoint. -/
structure CombatResult where
  combat_log : List String
  combat_ended : Bool
  player_hp : Int
  player_defeated : Bool
deriving DecidableEq

/-- A JS value interpolated into a template string: `undefined` prints
as the string "undefined". -/
def optStr : Option String → String
  | none => "undefined"
  | some s => s

/-- JS truthiness of `result.message` (undefined and "" are falsy). -/
def truthy : Option String → Bool
  | none => false
  | some s => !(s == "")

def combatStartMsg (e : Option Enemy) : String :=
  "Combat started with " ++ optStr (e.map (fun en => en.type)) ++ "!"

def gameOverMsg : String :=
  "Game Over! Return to menu to start again."

/-- `movePlayer` from App.js. The remote round trips are oracles:
`moveResp` is the `move-player` POST, `fetchResp` the `game/{id}` GET
that runs only on `result.success`; `.error` is a transport failure
(the catch block logs to the console and changes nothing). The second
component records whether a request was sent to the remote authority. -/
def movePlayer (cs : ClientState) (moveResp : Except Unit MoveResult)
    (fetchResp : Except Unit GameState) : ClientState × Bool :=
  match cs.gameState with
  | none => (cs, false)
  | some gs =>
    if gs.in_combat then (cs, false)
    else
      match moveResp with
      | .error _ => (cs, true)
      | .ok result =>
        if result.success then
          match fetchResp with
          | .error _ => (cs, true)
          | .ok updated =>
            let log1 := cs.combatLog ++
              (if truthy result.message then [optStr result.message] else [])
            let log2 := log1 ++
              (if result.in_combat then [combatStartMsg result.combat_enemy] else [])
            ({ gameState := some updated, combatLog := log2 }, true)
        else
          ({ cs with combatLog := cs.combatLog ++ [optStr result.message] }, true)

/-- `performCombatAction` from App.js. `resp` is the `combat` POST,
`fetchResp` the full-state GET that runs only when `combat_ended`. -/
def performCombatAction (cs : ClientState) (resp : Except Unit CombatResult)
    (fetchResp : Except Unit GameState) : ClientState × Bool :=
  match cs.gameState with
  | none => (cs, false)
  | some gs =>
    if gs.in_combat = false then (cs, false)
    else
      match resp with
      | .error _ => (cs, true)
      | .ok r =>
        let log1 := cs.combatLog ++ r.combat_log
        if r.combat_ended then
          match fetchResp with
          | .error _ => ({ cs with combatLog := log1 }, true)
          | .ok updated =>
            ({ gameState := some updated
               combatLog := log1 ++
                 (if r.player_defeated then [gameOverMsg] else []) }, true)
        else
          ({ gameState := some { gs with player_hp := r.player_hp }
             combatLog := log1 ++
               (if r.player_defeated then [gameOverMsg] else []) }, true)

/-- `dungeon.treasures.find(t => t.x === x && t.y === y &&
!gameState.collected_treasures.includes(t.id))`. -/
def findTreasure (d : Dungeon) (gs : GameState) (x y : Nat) : Option Treasure :=
  d.treasures.find? (fun t =>
    t.x == x && t.y == y && !(gs.collected_treasures.contains t.id))

def findEnemy (d : Dungeon) (x y : Nat) : Option Enemy :=
  d.enemies.find? (fun e => e.x == x && e.y == y && e.alive)

def findTrap (d : Dungeon) (x y : Nat) : Option Trap :=
  d.traps.find? (fun t => t.x == x && t.y == y)

def findDoor (d : Dungeon) (x y : Nat) : Option Door :=
  d.doors.find? (fun dr => dr.x == x && dr.y == y)

def findChest (d : Dungeon) (gs : GameState) (x y : Nat) : Option Chest :=
  d.chests.find? (fun c =>
    c.x == x && c.y == y && !(gs.opened_chests.contains c.id))

def findKey (d : Dungeon) (gs : GameState) (x y : Nat) : Option KeyEnt :=
  d.keys.find? (fun k =>
    k.x == x && k.y == y && !(gs.collected_keys.contains k.id))

def treasureEmoji (t : Treasure) : String :=
  if t.type == "gold" then "💰"
  else if t.type == "potion" then "🧪"
  else if t.type == "weapon" then "⚔️"
  else "🛡️"

def enemyEmoji (e : Enemy) : String :=
  if e.type == "goblin" then "👹"
  else if e.type == "orc" then "👺"
  else if e.type == "skeleton" then "💀"
  else if e.type == "spider" then "🕷️"
  else "🐀"

def keyEmoji (k : KeyEnt) : String :=
  if k.type == "gold" then "🔐"
  else if k.type == "silver" then "🔑"
  else "🗝️"

/-- The hero roster as far as rendering consumes it: (class, gender) to
display emoji; `heroes[class]?.[gender]?.emoji || default`. -/
def heroGlyph (heroes : List ((String × String) × String)) (gs : GameState) :
    String :=
  (heroes.lookup (gs.hero_class, gs.hero_gender)).getD "🧙‍♂️"

/-- `dungeon.grid[y][x]` as read by the render loop (the loop only
visits indices of the actual rows, so the fallback is never consulted on
the cells the app renders). -/
def gridCell (d : Dungeon) (y x : Nat) : Nat :=
  (d.grid.getD y []).getD x 1

/-- Per-cell glyph resolution of `renderDungeon` (App.js): the emoji
the cell at `(x, y)` ends up displaying. -/
def resolveGlyph (heroes : List ((String × String) × String)) (d : Dungeon)
    (gs : GameState) (x y : Nat) : String :=
  let cell := gridCell d y x
  let isPlayer := gs.player_x == (x : Int) && gs.player_y == (y : Int)
  let isDiscovered := tileAt gs.discovered_tiles y x
  let e1 : String :=
    if cell == 2 then
      match findDoor d x y with
      | some dr => if isDiscovered then (if dr.locked then "🚪" else "🔓") else ""
      | none => ""
    else if cell == 3 then
      match findChest d gs x y with
      | some c => if isDiscovered then (if c.locked then "📦" else "📂") else ""
      | none => ""
    else ""
  let e2 : String :=
    if isPlayer then heroGlyph heroes gs
    else if isDiscovered && !(cell == 1) then
      match findKey d gs x y with
      | some k => keyEmoji k
      | none =>
        match findTreasure d gs x y with
        | some t => treasureEmoji t
        | none =>
          match findEnemy d x y with
          | some e => enemyEmoji e
          | none =>
            match findTrap d x y with
            | some _ => "⚠️"
            | none => e1
    else e1
  if !isDiscovered && !isPlayer then "" else e2

/-- A dungeon with every consumed entity (id recorded in the collected
or opened sets) removed: per the spec, "treated as absent". -/
def pruneDungeon (d : Dungeon) (gs : GameState) : Dungeon :=
  { d with
    treasures := d.treasures.filter (fun t => !(gs.collected_treasures.contains t.id))
    chests := d.chests.filter (fun c => !(gs.opened_chests.contains c.id))
    keys := d.keys.filter (fun k => !(gs.collected_keys.contains k.id)) }

/-! Concrete fixtures used to exercise the theorems on explicit data. -/

def gs0 : GameState :=
  { id := "s1"
    player_x := 2
    player_y := 2
    discovered_tiles :=
      [[false, false, false, false, false],
       [false, false, false, false, false],
       [false, false, true, false, false],
       [false, false, false, false, false],
       [false, false, false, false, false]]
    hero_class := "wizard"
    hero_gender := "male"
    player_hp := 100
    max_hp := 100
    player_attack := 10
    player_defense := 5
    player_magic := 8
    player_agility := 7
    player_level := 1
    moves := 0
    inventory := []
    collected_treasures := []
    opened_chests := []
    collected_keys := []
    in_combat := false }

/-- The 5x5 all-floor dungeon of the fog-reveal scenario. -/
def d5 : Dungeon :=
  { width := 5
    height := 5
    grid :=
      [[0, 0, 0, 0, 0],
       [0, 0, 0, 0, 0],
       [0, 0, 0, 0, 0],
       [0, 0, 0, 0, 0],
       [0, 0, 0, 0, 0]]
    theme := "cave"
    difficulty := "medium"
    treasures := []
    enemies := []
    traps := []
    doors := []
    chests := []
    keys := [] }

/-- A 2x1 all-floor strip; the player stands at the left boundary. -/
def dB : Dungeon :=
  { d5 with width := 2, height := 1, grid := [[0, 0]] }

def gsB : GameState :=
  { gs0 with player_x := 0, player_y := 0, discovered_tiles := [[false, false]] }

/-- A 2x1 strip whose right cell is a Wall. -/
def dW : Dungeon :=
  { d5 with width := 2, height := 1, grid := [[0, 1]] }

def gsCombat : GameState :=
  { gs0 with in_combat := true }

def csIdle : ClientState :=
  { gameState := some gs0, combatLog := [] }

def csCombat : ClientState :=
  { gameState := some gsCombat, combatLog := ["Combat started with goblin!"] }

/-- The refreshed state the authority returns once combat has ended:
combat cleared, hp reduced, a treasure collected. -/
def gsAfterCombat : GameState :=
  { gs0 with player_hp := 60, collected_treasures := ["t1"], in_combat := false }

def rDefeat : CombatResult :=
  { combat_log := ["The goblin strikes you down!"]
    combat_ended := true
    player_hp := 0
    player_defeated := true }

def rHit : CombatResult :=
  { combat_log := ["You hit the goblin."]
    combat_ended := false
    player_hp := 72
    player_defeated := false }

def mrStep : MoveResult :=
  { success := true, message := none, in_combat := false, combat_enemy := none }

def gsMoved : GameState :=
  { gs0 with player_x := 3, moves := 1 }

/-! Theorems. -/

theorem getD_set_lt {α : Type} (l : List α) (i : Nat) (a d : α)
    (h : i < l.length) : (l.set i a).getD i d = a := by
  rw [List.getD_eq_getElem?_getD, List.getElem?_set_self h]
  rfl

theorem getD_set_ne {α : Type} (l : List α) (i j : Nat) (a d : α)
    (h : i ≠ j) : (l.set i a).getD j d = l.getD j d := by
  rw [List.getD_eq_getElem?_getD, List.getElem?_set_ne h,
    ← List.getD_eq_getElem?_getD]

/-- Effect of one discovery write on one read. -/
theorem tileAt_setTile (m : List (List Bool)) (a b y x : Nat) :
    tileAt (setTile m a b) y x =
      if y = a ∧ x = b ∧ a < m.length ∧ b < (m.getD a []).length then true
      else tileAt m y x := by
  unfold tileAt setTile
  by_cases hy : y = a
  · subst hy
    by_cases hm : y < m.length
    · rw [getD_set_lt _ _ _ _ hm]
      by_cases hx : x = b
      · subst hx
        by_cases hb : x < (m.getD y []).length
        · rw [getD_set_lt _ _ _ _ hb, if_pos ⟨rfl, rfl, hm, hb⟩]
        · rw [List.set_eq_of_length_le (Nat.le_of_not_lt hb),
            if_neg (fun hcon => hb hcon.2.2.2)]
      · rw [getD_set_ne _ _ _ _ _ (fun h2 => hx h2.symm)]
        simp [hx]
    · rw [List.set_eq_of_length_le (Nat.le_of_not_lt hm)]
      simp [hm]
  · rw [getD_set_ne _ _ _ _ _ (fun h2 => hy h2.symm)]
    simp [hy]

theorem length_setTile (m : List (List Bool)) (a b : Nat) :
    (setTile m a b).length = m.length :=
  List.length_set m a _

theorem rowLen_setTile (m : List (List Bool)) (a b i : Nat) :
    ((setTile m a b).getD i []).length = (m.getD i []).length := by
  unfold setTile
  by_cases hi : i = a
  · subst hi
    by_cases hm : i < m.length
    · rw [getD_set_lt _ _ _ _ hm, List.length_set]
    · rw [List.set_eq_of_length_le (Nat.le_of_not_lt hm)]
  · rw [getD_set_ne _ _ _ _ _ (fun h2 => hi h2.symm)]

theorem tileAt_setTile_mono (m : List (List Bool)) (a b y x : Nat)
    (h : tileAt m y x = true) : tileAt (setTile m a b) y x = true := by
  rw [tileAt_setTile]
  split
  · rfl
  · exact h

theorem tileAt_revealStep_mono (d : Dungeon) (nx ny : Int)
    (m : List (List Bool)) (o : Int × Int) (y x : Nat)
    (h : tileAt m y x = true) :
    tileAt (revealStep d nx ny m o) y x = true := by
  unfold revealStep
  split
  · exact tileAt_setTile_mono _ _ _ _ _ h
  · exact h

theorem tileAt_foldl_revealStep_mono (d : Dungeon) (nx ny : Int)
    (l : List (Int × Int)) (m : List (List Bool)) (y x : Nat)
    (h : tileAt m y x = true) :
    tileAt (l.foldl (revealStep d nx ny) m) y x = true := by
  induction l generalizing m with
  | nil => exact h
  | cons o t ih =>
    rw [List.foldl_cons]
    exact ih _ (tileAt_revealStep_mono d nx ny m o y x h)

/-- A single key press never forgets a discovered tile. -/
theorem handleKeyPress_mono (d : Dungeon) (gs : GameState) (dir : Dir)
    (y x : Nat) (h : tileAt gs.discovered_tiles y x = true) :
    tileAt (handleKeyPress d gs dir).discovered_tiles y x = true := by
  unfold handleKeyPress
  split
  · exact tileAt_foldl_revealStep_mono _ _ _ _ _ _ _ h
  · exact h

/-- C2: discovery is monotone along any sequence of movement actions:
every tile discovered after the first n-1 steps is still discovered
after the n-th step; no move clears a discovered tile. -/
theorem discovery_monotone (d : Dungeon) (gs : GameState) (dirs : List Dir)
    (dir : Dir) (y x : Nat)
    (h : tileAt (runMoves d gs dirs).discovered_tiles y x = true) :
    tileAt (runMoves d gs (dirs ++ [dir])).discovered_tiles y x = true := by
  rw [runMoves, List.foldl_append, List.foldl_cons, List.foldl_nil]
  exact handleKeyPress_mono d (runMoves d gs dirs) dir y x h

theorem discovery_monotone_witness :
    tileAt (runMoves d5 gs0 []).discovered_tiles 2 2 = true ∧
    tileAt (runMoves d5 gs0 ([] ++ [Dir.right])).discovered_tiles 2 2 = true :=
  ⟨by decide, discovery_monotone d5 gs0 [] Dir.right 2 2 (by decide)⟩

theorem wfTiles_setTile (d : Dungeon) (m : List (List Bool)) (a b : Nat)
    (hwf : WfTiles d m) : WfTiles d (setTile m a b) := by
  obtain ⟨hlen, hrow⟩ := hwf
  refine ⟨?_, ?_⟩
  · rw [length_setTile, hlen]
  · intro i hi
    rw [rowLen_setTile]
    exact hrow i hi

theorem wfTiles_revealStep (d : Dungeon) (nx ny : Int) (m : List (List Bool))
    (o : Int × Int) (hwf : WfTiles d m) :
    WfTiles d (revealStep d nx ny m o) := by
  unfold revealStep
  split
  · exact wfTiles_setTile d m _ _ hwf
  · exact hwf

/-- One loop iteration either leaves a tile alone or sets its target;
`hitB` says which. -/
theorem tileAt_revealStep (d : Dungeon) (nx ny : Int) (m : List (List Bool))
    (o : Int × Int) (y x : Nat) (hwf : WfTiles d m) :
    tileAt (revealStep d nx ny m o) y x =
      (tileAt m y x || hitB d nx ny o y x) := by
  obtain ⟨hlen, hrow⟩ := hwf
  by_cases ht : tileAt m y x = true
  · rw [ht, Bool.true_or]
    exact tileAt_revealStep_mono d nx ny m o y x ht
  · have ht2 : tileAt m y x = false := by
      cases h3 : tileAt m y x
      · rfl
      · exact absurd h3 ht
    rw [ht2, Bool.false_or]
    unfold revealStep hitB
    by_cases hcond : 0 ≤ ny + o.1 ∧ ny + o.1 < (d.height : Int) ∧
        0 ≤ nx + o.2 ∧ nx + o.2 < (d.width : Int)
    · rw [if_pos hcond, tileAt_setTile]
      by_cases hy : y = (ny + o.1).toNat ∧ x = (nx + o.2).toNat
      · have hlt1 : (ny + o.1).toNat < m.length := by omega
        have hlt2 : (nx + o.2).toNat < (m.getD (ny + o.1).toNat []).length := by
          rw [hrow _ (List.mem_range.mpr (by omega))]
          omega
        rw [if_pos ⟨hy.1, hy.2, hlt1, hlt2⟩]
        symm
        rw [decide_eq_true_eq]
        exact ⟨hcond.1, hcond.2.1, hcond.2.2.1, hcond.2.2.2, hy.1.symm, hy.2.symm⟩
      · rw [if_neg (fun hcon => hy ⟨hcon.1, hcon.2.1⟩), ht2]
        symm
        rw [decide_eq_false_iff_not]
        intro hcon
        exact hy ⟨hcon.2.2.2.2.1.symm, hcon.2.2.2.2.2.symm⟩
    · rw [if_neg hcond, ht2]
      symm
      rw [decide_eq_false_iff_not]
      intro hcon
      exact hcond ⟨hcon.1, hcon.2.1, hcon.2.2.1, hcon.2.2.2.1⟩

/-- Reading a tile after the reveal loop: the old value or-ed with
"some iteration wrote this tile". -/
theorem tileAt_foldl_revealStep (d : Dungeon) (nx ny : Int) (y x : Nat) :
    ∀ (l : List (Int × Int)) (m : List (List Bool)), WfTiles d m →
      tileAt (l.foldl (revealStep d nx ny) m) y x =
        (tileAt m y x || l.any (fun o => hitB d nx ny o y x)) := by
  intro l
  induction l with
  | nil =>
    intro m _
    simp
  | cons o t ih =>
    intro m hwf
    rw [List.foldl_cons,
      ih (revealStep d nx ny m o) (wfTiles_revealStep d nx ny m o hwf),
      tileAt_revealStep d nx ny m o y x hwf, List.any_cons, Bool.or_assoc]

/-- An iteration writes `(y, x)` exactly when its target indices equal
`(y, x)` and are in bounds (the bounds check makes `toNat` faithful). -/
theorem hitB_eq (d : Dungeon) (nx ny : Int) (o : Int × Int) (y x : Nat) :
    hitB d nx ny o y x =
      decide (ny + o.1 = (y : Int) ∧ nx + o.2 = (x : Int) ∧
        (y : Int) < (d.height : Int) ∧ (x : Int) < (d.width : Int)) := by
  rw [Bool.eq_iff_iff]
  simp only [hitB, decide_eq_true_eq]
  omega

/-- Some offset of the 3x3 loop writes `(y, x)` exactly when `(y, x)`
lies in the clipped neighbourhood of the destination. -/
theorem any_offsets_eq_inNeighborhood (d : Dungeon) (nx ny : Int) (y x : Nat) :
    (offsets.any (fun o => hitB d nx ny o y x)) = inNeighborhood d nx ny y x := by
  rw [Bool.eq_iff_iff]
  simp only [offsets, List.any_cons, List.any_nil, hitB_eq, inNeighborhood,
    Bool.or_eq_true, decide_eq_true_eq, Bool.false_or, Bool.or_false]
  omega

/-- C1: a successful move marks as discovered exactly the in-bounds
cells of the 3x3 neighbourhood of the destination, in addition to the
already discovered tiles; the discovery status of no other tile changes. -/
theorem move_reveals_neighborhood (d : Dungeon) (gs : GameState) (dir : Dir)
    (hwf : WfTiles d gs.discovered_tiles)
    (hmove : cellAt d (candidate d gs dir).1 (candidate d gs dir).2 = some 0)
    (y x : Nat) :
    tileAt (handleKeyPress d gs dir).discovered_tiles y x =
      (tileAt gs.discovered_tiles y x ||
        inNeighborhood d (candidate d gs dir).1 (candidate d gs dir).2 y x) := by
  unfold handleKeyPress
  rw [if_pos hmove]
  show tileAt (revealAround d (candidate d gs dir).1 (candidate d gs dir).2
      gs.discovered_tiles) y x =
    (tileAt gs.discovered_tiles y x ||
      inNeighborhood d (candidate d gs dir).1 (candidate d gs dir).2 y x)
  rw [revealAround,
    tileAt_foldl_revealStep d (candidate d gs dir).1 (candidate d gs dir).2 y x
      offsets gs.discovered_tiles hwf,
    any_offsets_eq_inNeighborhood]

theorem find_on_filter {α : Type} (p q : α → Bool) (l : List α)
    (h : ∀ a, p a = true → q a = true) :
    List.find? p (l.filter q) = List.find? p l := by
  induction l with
  | nil => rfl
  | cons a t ih =>
    by_cases hq : q a = true
    · rw [List.filter_cons_of_pos hq]
      by_cases hp : p a = true
      · rw [List.find?_cons_of_pos _ hp, List.find?_cons_of_pos _ hp]
      · rw [List.find?_cons_of_neg _ (by simpa using hp),
          List.find?_cons_of_neg _ (by simpa using hp), ih]
    · rw [List.filter_cons_of_neg (by simpa using hq), ih,
        List.find?_cons_of_neg _ (fun hp => hq (h a hp))]

theorem findTreasure_prune (d : Dungeon) (gs : GameState) (x y : Nat) :
    findTreasure (pruneDungeon d gs) gs x y = findTreasure d gs x y :=
  find_on_filter _ _ d.treasures (fun t ht => by
    simp only [Bool.and_eq_true] at ht
    exact ht.2)

theorem findChest_prune (d : Dungeon) (gs : GameState) (x y : Nat) :
    findChest (pruneDungeon d gs) gs x y = findChest d gs x y :=
  find_on_filter _ _ d.chests (fun c hc => by
    simp only [Bool.and_eq_true] at hc
    exact hc.2)

theorem findKey_prune (d : Dungeon) (gs : GameState) (x y : Nat) :
    findKey (pruneDungeon d gs) gs x y = findKey d gs x y :=
  find_on_filter _ _ d.keys (fun k hk => by
    simp only [Bool.and_eq_true] at hk
    exact hk.2)

theorem gridCell_prune (d : Dungeon) (gs : GameState) (y x : Nat) :
    gridCell (pruneDungeon d gs) y x = gridCell d y x :=
  rfl

theorem findEnemy_prune (d : Dungeon) (gs : GameState) (x y : Nat) :
    findEnemy (pruneDungeon d gs) x y = findEnemy d x y :=
  rfl

theorem findTrap_prune (d : Dungeon) (gs : GameState) (x y : Nat) :
    findTrap (pruneDungeon d gs) x y = findTrap d x y :=
  rfl

theorem findDoor_prune (d : Dungeon) (gs : GameState) (x y : Nat) :
    findDoor (pruneDungeon d gs) x y = findDoor d x y :=
  rfl

/-- C10: consumed entities are invisible to glyph resolution: the
resolved glyph of every cell is unchanged when all treasures, chests
and keys whose ids sit in the collected/opened sets are removed from
the dungeon, so the glyph of such an entity is never produced — discovered
or not. -/
theorem consumed_entities_invisible (heroes : List ((String × String) × String))
    (d : Dungeon) (gs : GameState) (x y : Nat) :
    resolveGlyph heroes (pruneDungeon d gs) gs x y =
      resolveGlyph heroes d gs x y := by
  unfold resolveGlyph
  rw [findTreasure_prune, findChest_prune, findKey_prune, gridCell_prune,
    findEnemy_prune, findTrap_prune, findDoor_prune]

theorem move_reveals_neighborhood_witness :
    WfTiles d5 gs0.discovered_tiles ∧
    cellAt d5 (candidate d5 gs0 Dir.right).1 (candidate d5 gs0 Dir.right).2 =
      some 0 ∧
    tileAt (handleKeyPress d5 gs0 Dir.right).discovered_tiles 1 2 =
      (tileAt gs0.discovered_tiles 1 2 ||
        inNeighborhood d5 (candidate d5 gs0 Dir.right).1
          (candidate d5 gs0 Dir.right).2 1 2) :=
  ⟨by decide, by decide,
    move_reveals_neighborhood d5 gs0 Dir.right (by decide) (by decide) 1 2⟩

/-- C3 counterexample: with the player standing on a Floor cell at
`x = 0`, pressing left is not a no-op — the floor check passes at the
own (clamped) cell of the player and the moves counter increments. -/
theorem boundary_move_increments_moves :
    gsB.player_x = 0 ∧ (handleKeyPress dB gsB Dir.left).moves ≠ gsB.moves := by
  decide

/-- C3 (amended): a boundary-clamped move never changes `player_x` or
`player_y`; but it is treated as a successful move onto the current
current cell, so `moves` increments exactly when that cell is Floor. -/
theorem boundary_clamp_keeps_position (d : Dungeon) (gs : GameState) (dir : Dir)
    (h : (dir = Dir.left ∧ gs.player_x = 0) ∨ (dir = Dir.up ∧ gs.player_y = 0) ∨
      (dir = Dir.right ∧ gs.player_x = (d.width : Int) - 1) ∨
      (dir = Dir.down ∧ gs.player_y = (d.height : Int) - 1)) :
    (handleKeyPress d gs dir).player_x = gs.player_x ∧
    (handleKeyPress d gs dir).player_y = gs.player_y ∧
    (handleKeyPress d gs dir).moves =
      (if cellAt d gs.player_x gs.player_y = some 0 then gs.moves + 1
       else gs.moves) := by
  have hc : candidate d gs dir = (gs.player_x, gs.player_y) := by
    rcases h with ⟨hd, hv⟩ | ⟨hd, hv⟩ | ⟨hd, hv⟩ | ⟨hd, hv⟩ <;> subst hd <;>
      simp only [candidate, Prod.mk.injEq, and_true, true_and] <;> omega
  unfold handleKeyPress
  rw [hc]
  by_cases hcell : cellAt d gs.player_x gs.player_y = some 0 <;>
    simp [hcell]

theorem boundary_clamp_keeps_position_witness :
    (handleKeyPress dB gsB Dir.left).player_x = gsB.player_x ∧
    (handleKeyPress dB gsB Dir.left).player_y = gsB.player_y ∧
    (handleKeyPress dB gsB Dir.left).moves =
      (if cellAt dB gsB.player_x gsB.player_y = some 0 then gsB.moves + 1
       else gsB.moves) :=
  boundary_clamp_keeps_position dB gsB Dir.left (Or.inl ⟨rfl, rfl⟩)

/-- C4: a move whose candidate destination cell is a Wall (grid value 1)
leaves `player_x`, `player_y` and the moves counter unchanged. -/
theorem wall_move_rejected (d : Dungeon) (gs : GameState) (dir : Dir)
    (h : cellAt d (candidate d gs dir).1 (candidate d gs dir).2 = some 1) :
    (handleKeyPress d gs dir).player_x = gs.player_x ∧
    (handleKeyPress d gs dir).player_y = gs.player_y ∧
    (handleKeyPress d gs dir).moves = gs.moves := by
  have hne : cellAt d (candidate d gs dir).1 (candidate d gs dir).2 ≠ some 0 := by
    rw [h]; simp
  simp [handleKeyPress, hne]

theorem wall_move_rejected_witness :
    cellAt dW (candidate dW gsB Dir.right).1 (candidate dW gsB Dir.right).2 = some 1 ∧
    (handleKeyPress dW gsB Dir.right).player_x = gsB.player_x ∧
    (handleKeyPress dW gsB Dir.right).player_y = gsB.player_y ∧
    (handleKeyPress dW gsB Dir.right).moves = gsB.moves :=
  ⟨by decide, wall_move_rejected dW gsB Dir.right (by decide)⟩

/-- C5: with no active game state or with `in_combat` set, `movePlayer`
returns without sending a request and without touching any state. -/
theorem combat_gates_movement (cs : ClientState)
    (moveResp : Except Unit MoveResult) (fetchResp : Except Unit GameState)
    (h : cs.gameState = none ∨
      ∃ gs, cs.gameState = some gs ∧ gs.in_combat = true) :
    movePlayer cs moveResp fetchResp = (cs, false) := by
  unfold movePlayer
  rcases h with h | ⟨gs, hgs, hc⟩
  · rw [h]
  · rw [hgs]
    simp [hc]

theorem combat_gates_movement_witness :
    movePlayer csCombat (Except.error ()) (Except.error ()) = (csCombat, false) :=
  combat_gates_movement csCombat (Except.error ()) (Except.error ())
    (Or.inr ⟨gsCombat, rfl, rfl⟩)

/-- C6: when a combat action reports `combat_ended`, the resulting
game state is exactly the state returned by the subsequent full-state
fetch, independent of the fields of the previous state. -/
theorem combat_end_full_refresh (cs : ClientState) (gs updated : GameState)
    (r : CombatResult) (hgs : cs.gameState = some gs)
    (hc : gs.in_combat = true) (he : r.combat_ended = true) :
    (performCombatAction cs (Except.ok r) (Except.ok updated)).1.gameState =
      some updated := by
  unfold performCombatAction
  rw [hgs]
  simp [hc, he]

theorem combat_end_full_refresh_witness :
    (performCombatAction csCombat (Except.ok rDefeat)
        (Except.ok gsAfterCombat)).1.gameState = some gsAfterCombat :=
  combat_end_full_refresh csCombat gsCombat gsAfterCombat rDefeat rfl rfl rfl

/-- C7: when a combat action reports the combat as still ongoing, the
handler patches exactly `player_hp` and leaves every other field of the
game state as it was. -/
theorem combat_ongoing_patches_hp_only (cs : ClientState) (gs : GameState)
    (r : CombatResult) (fetchResp : Except Unit GameState)
    (hgs : cs.gameState = some gs) (hc : gs.in_combat = true)
    (he : r.combat_ended = false) :
    (performCombatAction cs (Except.ok r) fetchResp).1.gameState =
      some { gs with player_hp := r.player_hp } := by
  unfold performCombatAction
  rw [hgs]
  simp [hc, he]

theorem combat_ongoing_patches_hp_only_witness :
    (performCombatAction csCombat (Except.ok rHit)
        (Except.error ())).1.gameState =
      some { gsCombat with player_hp := rHit.player_hp } :=
  combat_ongoing_patches_hp_only csCombat gsCombat rHit (Except.error ())
    rfl rfl rfl

/-- C9: if a remote round trip of `movePlayer` fails in transport —
either the move request itself, or the full-state fetch that follows a
successful move — the client state is left exactly as it was. -/
theorem move_failure_state_unchanged (cs : ClientState)
    (moveResp : Except Unit MoveResult) (fetchResp : Except Unit GameState)
    (h : moveResp = Except.error () ∨
      ∃ r, moveResp = Except.ok r ∧ r.success = true ∧
        fetchResp = Except.error ()) :
    (movePlayer cs moveResp fetchResp).1 = cs := by
  unfold movePlayer
  rcases hgs : cs.gameState with _ | gs
  · rfl
  · by_cases hc : gs.in_combat
    · simp [hc]
    · rcases h with h | ⟨r, hr, hs, hf⟩
      · subst h
        simp [hc]
      · subst hr
        subst hf
        simp [hc, hs]

theorem move_failure_state_unchanged_witness :
    (movePlayer csIdle (Except.error ()) (Except.error ())).1 = csIdle :=
  move_failure_state_unchanged csIdle (Except.error ()) (Except.error ())
    (Or.inl rfl)

/-- `movePlayer` sends a request exactly when an active game state
exists and combat is off — nothing else gates movement. -/
theorem movePlayer_sent_iff (cs : ClientState) (m : Except Unit MoveResult)
    (f : Except Unit GameState) :
    (movePlayer cs m f).2 = true ↔
      ∃ gs, cs.gameState = some gs ∧ gs.in_combat = false := by
  unfold movePlayer
  rcases hgs : cs.gameState with _ | gs
  · simp
  · by_cases hc : gs.in_combat
    · simp [hc]
    · rcases m with _ | r
      · simp [hc]
      · by_cases hs : r.success
        · rcases f with _ | u
          · simp [hc, hs]
          · simp [hc, hs]
        · simp [hc, hs]

/-- C8 counterexample: starting in combat, an attack response with
`player_defeated = true` (and `combat_ended = true`) only appends a log
line; the very next movement request, with no new session, is accepted:
it is sent to the remote authority and its result is applied. -/
theorem defeat_not_blocking :
    rDefeat.player_defeated = true ∧
    (movePlayer (performCombatAction csCombat (Except.ok rDefeat)
        (Except.ok gsAfterCombat)).1 (Except.ok mrStep)
        (Except.ok gsMoved)).2 = true ∧
    (movePlayer (performCombatAction csCombat (Except.ok rDefeat)
        (Except.ok gsAfterCombat)).1 (Except.ok mrStep)
        (Except.ok gsMoved)).1.gameState = some gsMoved := by
  refine ⟨rfl, rfl, rfl⟩

/-- C8 (amended): `player_defeated` is not a gate on the client: after
a combat response carrying it, a subsequent movement request is
accepted (sent to the remote authority) exactly when the refreshed
game state is active with `in_combat = false` — defeat itself blocks
nothing; the client merely logs a game-over message. -/
theorem post_defeat_move_gate (cs : ClientState) (r : CombatResult)
    (f : Except Unit GameState) (m : Except Unit MoveResult)
    (f2 : Except Unit GameState) (hd : r.player_defeated = true) :
    ((movePlayer (performCombatAction cs (Except.ok r) f).1 m f2).2 = true ↔
      ∃ gs1, (performCombatAction cs (Except.ok r) f).1.gameState = some gs1 ∧
        gs1.in_combat = false) :=
  movePlayer_sent_iff (performCombatAction cs (Except.ok r) f).1 m f2

theorem post_defeat_move_gate_witness :
    rDefeat.player_defeated = true ∧
    ((movePlayer (performCombatAction csCombat (Except.ok rDefeat)
        (Except.ok gsAfterCombat)).1 (Except.ok mrStep)
        (Except.ok gsMoved)).2 = true ↔
      ∃ gs1, (performCombatAction csCombat (Except.ok rDefeat)
          (Except.ok gsAfterCombat)).1.gameState = some gs1 ∧
        gs1.in_combat = false) :=
  ⟨rfl, post_defeat_move_gate csCombat rDefeat (Except.ok gsAfterCombat)
    (Except.ok mrStep) (Except.ok gsMoved) rfl⟩
